import Mathlib

/-
  Verification development for the kansible repository.

  Part 1 embeds `ssh/ssh.go` (functions `RemoteSSHCommand` and
  `PublicKeyFile`) shallowly: the external effects performed through
  `golang.org/x/crypto/ssh`, `net`, `io/ioutil` and `os` are supplied by an
  oracle structure `SSHWorld`, and the function is translated into a pure
  Lean function that returns the list of externally visible actions it
  performed (its trace) together with its `error` return value
  (`none` models a `nil` Go error).

  Part 2 models the host-claim coordination protocol (ClaimStore /
  HostClaimer / StatusReporter).  That code is part of the kansible
  repository but is not under `src/`, so it is modelled from the spec.
-/

set_option autoImplicit false

namespace Kansible

namespace SSH

/-- Model of `golang.org/x/crypto/ssh` `AuthMethod` values.  `PublicKeys key`
models the value `ssh.PublicKeys(key)`; private keys themselves are abstracted
to a numeric identity. -/
inductive AuthMethod where
  | publicKeys (key : Nat)
deriving DecidableEq, Repr

/-- Model of `ssh.ClientConfig` as built by `RemoteSSHCommand`.  The Go struct
has further fields (notably `Timeout`, which bounds the connection attempt:
its zero value means that `ssh.Dial` applies no connect timeout at all).
`timeout = none` models the zero value, i.e. no connect timeout; the entries of
`auth` are `Option` because `PublicKeyFile` can return a nil `AuthMethod`. -/
structure ClientConfig where
  user : String
  auth : List (Option AuthMethod)
  timeout : Option Nat
deriving DecidableEq, Repr

/-- The byte streams wired together by the three `go io.Copy(dst, src)`
statements: the local process streams (`os.Stdin`, `os.Stdout`, `os.Stderr`)
and the remote session pipes. -/
inductive IOStream where
  | localStdin
  | localStdout
  | localStderr
  | remoteStdin
  | remoteStdout
  | remoteStderr
deriving DecidableEq, Repr

/-- RFC 4254 terminal mode opcode TTY_OP_ISPEED (input speed). -/
def ttyOpIspeed : Nat := 128

/-- RFC 4254 terminal mode opcode TTY_OP_OSPEED (output speed). -/
def ttyOpOspeed : Nat := 129

/-- The `ssh.TerminalModes` literal built in `RemoteSSHCommand`:
input and output speed 14.4 kbaud (the `ssh.ECHO` entry is commented out in
the source). -/
def ttyModes : List (Nat × Nat) := [(ttyOpIspeed, 14400), (ttyOpOspeed, 14400)]

/-- Outcome of `session.Run(cmd)` as seen by the Go caller: the remote process
exited with some code (the library returns a nil error exactly for exit
code 0 and an `ExitError` otherwise), or the run failed with a transport
error. -/
inductive RunOutcome where
  | exited (code : Nat)
  | failed (msg : String)
deriving DecidableEq, Repr

/-- The `error` value returned by `session.Run` for a given outcome:
`nil` for exit code 0, an `ExitError` rendered as
`Process exited with status c` for a non-zero exit code `c`, and the message
itself for a transport failure. -/
def RunOutcome.runError : RunOutcome → Option String
  | .exited 0 => none
  | .exited (c + 1) => some ("Process exited with status " ++ toString (c + 1))
  | .failed m => some m

/-- Oracle for every external effect `RemoteSSHCommand` and `PublicKeyFile`
perform.  Each field gives the result the outside world (filesystem, network,
remote sshd) would return for that call; `Except String Unit` models a Go
call returning only an `error`. -/
structure SSHWorld where
  /-- `ioutil.ReadFile file`: the file contents (as a byte list) or an error. -/
  readFile : String → Except String (List Nat)
  /-- `ssh.ParsePrivateKey buffer`: the parsed key (abstracted to an id) or an error. -/
  parsePrivateKey : List Nat → Except String Nat
  /-- `ssh.Dial network addr config`: connection established or an error. -/
  dial : String → String → ClientConfig → Except String Unit
  /-- `connection.NewSession()`. -/
  newSession : Except String Unit
  /-- `session.RequestPty term h w modes` (the library signature takes the
  height before the width). -/
  requestPty : String → Nat → Nat → List (Nat × Nat) → Except String Unit
  /-- `session.StdinPipe()`. -/
  stdinPipe : Except String Unit
  /-- `session.StdoutPipe()`. -/
  stdoutPipe : Except String Unit
  /-- `session.StderrPipe()`. -/
  stderrPipe : Except String Unit
  /-- `session.Setenv name value`. -/
  setenv : String → String → Except String Unit
  /-- `session.Run cmd`: how the remote command terminates. -/
  run : String → RunOutcome

/-- Model of Go `net.JoinHostPort`: joins host and port with a colon,
bracketing the host when it itself contains a colon (IPv6 literals). -/
def joinHostPort (host port : String) : String :=
  if host.data.contains ':' then "[" ++ host ++ "]:" ++ port
  else host ++ ":" ++ port

/-- The externally visible actions `RemoteSSHCommand` performs, in program
order.  `spawnCopy dst src` records a `go io.Copy(dst, src)` statement: an
independent concurrently running copy task (not a blocking call), which
transfers the source stream's bytes to the destination in order and ends when
the session streams are closed. -/
inductive Action where
  /-- `ssh.Dial "tcp" hostPort sshConfig`. -/
  | dialTCP (hostPort : String) (config : ClientConfig)
  /-- `connection.NewSession()`. -/
  | newSession
  /-- `session.RequestPty(term, height, width, modes)`; the
  `golang.org/x/crypto/ssh` signature is `RequestPty(term string, h, w int,
  termmodes TerminalModes)`, so the second argument is the height (rows) and
  the third the width (columns). -/
  | requestPty (term : String) (height width : Nat) (modes : List (Nat × Nat))
  /-- a `go io.Copy(dst, src)` statement spawning a concurrent copy task. -/
  | spawnCopy (dst src : IOStream)
  /-- `session.Setenv name value`. -/
  | setenv (name value : String)
  /-- `session.Run cmd`. -/
  | runCmd (cmd : String)
  /-- `session.Close()` (run via `defer`). -/
  | closeSession
deriving DecidableEq, Repr

/-- Embedding of `PublicKeyFile` (ssh.go:102-113): read the key file, parse
it, and wrap the key with `ssh.PublicKeys`; on either failure return nil
(`none`) — the underlying error is discarded. -/
def PublicKeyFile (w : SSHWorld) (file : String) : Option AuthMethod :=
  match w.readFile file with
  | .error _ => none
  | .ok buffer =>
    match w.parsePrivateKey buffer with
    | .error _ => none
    | .ok key => some (AuthMethod.publicKeys key)

/-- The `ssh.ClientConfig` literal built at ssh.go:39-44: the given user, a
single auth method produced by `PublicKeyFile`, and no other field set —
in particular `Timeout` is left at its zero value (`none`). -/
def mkSSHConfig (w : SSHWorld) (user privateKey : String) : ClientConfig :=
  { user := user, auth := [PublicKeyFile w privateKey], timeout := none }

/-- The `for envName, envValue := range envVars` loop at ssh.go:86-91,
over a given iteration order of the map: attempt `session.Setenv` for each
pair in turn; on the first failure return the wrapped error, otherwise
continue.  Returns the setenv actions attempted and the error result. -/
def setenvLoop (w : SSHWorld) : List (String × String) → List Action × Option String
  | [] => ([], none)
  | (n, v) :: rest =>
    match w.setenv n v with
    | .error e =>
      ([Action.setenv n v],
        some ("Could not set environment variable " ++ n ++ " = " ++ v ++
          " over SSH. This could be disabled by the sshd configuration. See the `AcceptEnv` setting in your /etc/ssh/sshd_config more info: http://linux.die.net/man/5/sshd_config . Error: " ++ e))
    | .ok _ =>
      let r := setenvLoop w rest
      (Action.setenv n v :: r.1, r.2)

/-- The body of `RemoteSSHCommand` from the point where the session exists
(ssh.go:58-98): request a pty, set up the three pipe/copy pairs, run the
setenv loop, then `session.Run cmd`.  The deferred `session.Close` is
appended by the caller. -/
def afterSession (w : SSHWorld) (cmd : String) (envVars : List (String × String)) :
    List Action × Option String :=
  let pty := Action.requestPty "xterm" 80 40 ttyModes
  match w.requestPty "xterm" 80 40 ttyModes with
  | .error e => ([pty], some ("Request for pseudo terminal failed: " ++ e))
  | .ok _ =>
    match w.stdinPipe with
    | .error e => ([pty], some ("Unable to setup stdin for session: " ++ e))
    | .ok _ =>
      let cin := Action.spawnCopy IOStream.remoteStdin IOStream.localStdin
      match w.stdoutPipe with
      | .error e => ([pty, cin], some ("Unable to setup stdout for session: " ++ e))
      | .ok _ =>
        let cout := Action.spawnCopy IOStream.localStdout IOStream.remoteStdout
        match w.stderrPipe with
        | .error e => ([pty, cin, cout], some ("Unable to setup stderr for session: " ++ e))
        | .ok _ =>
          let cerr := Action.spawnCopy IOStream.localStderr IOStream.remoteStderr
          let envR := setenvLoop w envVars
          match envR.2 with
          | some e => ([pty, cin, cout, cerr] ++ envR.1, some e)
          | none =>
            match (w.run cmd).runError with
            | some e =>
              ([pty, cin, cout, cerr] ++ envR.1 ++ [Action.runCmd cmd],
                some ("Failed to run command: " ++ cmd ++ ": " ++ e))
            | none =>
              ([pty, cin, cout, cerr] ++ envR.1 ++ [Action.runCmd cmd], none)

/-- Embedding of `RemoteSSHCommand` (ssh.go:31-99).  `envVars` is the Go map
given as the sequence of pairs in the (arbitrary) order the `range` loop
visits them.  Returns the trace of external actions performed and the
function's `error` result (`none` for a nil error).  The dead
`if sshConfig == nil` check at ssh.go:45 has no effect and is omitted. -/
def RemoteSSHCommand (w : SSHWorld) (user privateKey host port cmd : String)
    (envVars : List (String × String)) : List Action × Option String :=
  if privateKey.length = 0 then
    ([], some ("Could not find PrivateKey for entry " ++ host))
  else
    let hostPort := joinHostPort host port
    let sshConfig := mkSSHConfig w user privateKey
    match w.dial "tcp" hostPort sshConfig with
    | .error e =>
      ([Action.dialTCP hostPort sshConfig], some ("Failed to dial: " ++ e))
    | .ok _ =>
      match w.newSession with
      | .error e =>
        ([Action.dialTCP hostPort sshConfig, Action.newSession],
          some ("Failed to create session: " ++ e))
      | .ok _ =>
        let r := afterSession w cmd envVars
        ([Action.dialTCP hostPort sshConfig, Action.newSession] ++ r.1 ++
          [Action.closeSession], r.2)

/-- The environment pairs set on the session, in order, as recorded in a
trace. -/
def setenvActions (t : List Action) : List (String × String) :=
  t.filterMap fun a =>
    match a with
    | Action.setenv n v => some (n, v)
    | _ => none

/-- Action `a` occurs strictly before action `b` in trace `t`. -/
def precedes (a b : Action) (t : List Action) : Prop :=
  ∃ t1 t2, t = t1 ++ a :: t2 ∧ b ∈ t2

/-- Actions performed on an established session (everything `afterSession`
can emit): pty request, copy-task spawn, setenv, or running the command. -/
def Action.isSessionAct : Action → Bool
  | .requestPty _ _ _ _ => true
  | .spawnCopy _ _ => true
  | .setenv _ _ => true
  | .runCmd _ => true
  | .dialTCP _ _ => false
  | .newSession => false
  | .closeSession => false

/-- A world in which every external call succeeds and the remote command
exits with status 0; used to instantiate the theorems at concrete inputs. -/
def witWorld : SSHWorld where
  readFile := fun _ => Except.ok [1, 2, 3]
  parsePrivateKey := fun _ => Except.ok 7
  dial := fun _ _ _ => Except.ok ()
  newSession := Except.ok ()
  requestPty := fun _ _ _ _ => Except.ok ()
  stdinPipe := Except.ok ()
  stdoutPipe := Except.ok ()
  stderrPipe := Except.ok ()
  setenv := fun _ _ => Except.ok ()
  run := fun _ => RunOutcome.exited 0

/-- Like `witWorld`, but the private-key file cannot be read. -/
def witWorldBadKey : SSHWorld :=
  { witWorld with readFile := fun _ => Except.error "no such file" }

/-- Like `witWorld`, but dialing the host fails. -/
def witWorldDialFail : SSHWorld :=
  { witWorld with dial := fun _ _ _ => Except.error "connection refused" }

/-- Like `witWorld`, but creating a session fails. -/
def witWorldSessFail : SSHWorld :=
  { witWorld with newSession := Except.error "handshake aborted" }

/-- Like `witWorld`, but the pseudo-terminal request fails. -/
def witWorldPtyFail : SSHWorld :=
  { witWorld with requestPty := fun _ _ _ _ => Except.error "pty refused" }

/-- Like `witWorld`, but every setenv request is rejected by the remote
sshd. -/
def witWorldSetenvFail : SSHWorld :=
  { witWorld with setenv := fun _ _ => Except.error "AcceptEnv refused" }

/-- Like `witWorld`, but the remote command exits with status 2. -/
def witWorldExit2 : SSHWorld :=
  { witWorld with run := fun _ => RunOutcome.exited 2 }

end SSH

namespace ClaimProtocol

/-- Modelled from the spec: the `state` field of a `Claim` record (§3),
`state ∈ {Claiming, Running, Failed, Released}`; the HostClaimer /
ClaimStore source is not under `src/`. -/
inductive ClaimState where
  | Claiming
  | Running
  | Failed
  | Released
deriving DecidableEq, Repr

/-- Modelled from the spec: a `Claim` record written into the ClaimStore
under key `hostClaim/<hostName>` (§3): owner identity, state and the
heartbeat timestamp advanced by StatusReporter. -/
structure Claim where
  ownerId : String
  state : ClaimState
  lastHeartbeat : Nat
deriving DecidableEq, Repr

/-- Modelled from the spec: reading the claim stored for one host name out of
the store's entry list (the `mapping[hostName]->Claim` of §4.3). -/
def lookupClaim : List (String × Claim) → String → Option Claim
  | [], _ => none
  | (k, c) :: rest, h => if k = h then some c else lookupClaim rest h

/-- Modelled from the spec: storing a claim under a host-name key, replacing
the existing record for that key if present (a key/value store holds one
value per key). -/
def upsert : List (String × Claim) → String → Claim → List (String × Claim)
  | [], h, c => [(h, c)]
  | (k, v) :: rest, h, c =>
    if k = h then (h, c) :: rest else (k, v) :: upsert rest h c

/-- Modelled from the spec: the shared ClaimStore state (§4.3) plus a global
clock against which heartbeat freshness is judged; entries associate host
names with their stored `Claim`. -/
structure StoreState where
  entries : List (String × Claim)
  clock : Nat
deriving DecidableEq, Repr

/-- Modelled from the spec: `ConditionalWrite(hostName, expectedPrior,
newClaim) -> success|conflict` (§4.3) — the write succeeds only if the value
currently stored under the key equals `expected` (compare-and-swap),
linearizable per key. -/
def conditionalWrite (s : StoreState) (host : String) (expected : Option Claim)
    (c : Claim) : Option StoreState :=
  if lookupClaim s.entries host = expected then
    some { s with entries := upsert s.entries host c }
  else
    none

/-- Modelled from the spec: one atomic event of the coordination medium.
Every mutation any worker (HostClaimer step 4, StatusReporter heartbeat,
release on shutdown) performs on the store is a single conditional write
(§5: no read-modify-write without the CAS guard), so an arbitrary
interleaving of any number of workers running the acquisition protocol is
covered by allowing an arbitrary successful `conditionalWrite` at each step;
`tick` advances the clock, letting heartbeats go stale. -/
inductive Step : StoreState → StoreState → Prop where
  | write {s : StoreState} (host : String) (expected : Option Claim) (c : Claim)
      {s2 : StoreState} : conditionalWrite s host expected c = some s2 → Step s s2
  | tick {s : StoreState} : Step s { s with clock := s.clock + 1 }

/-- Modelled from the spec: the store states reachable from the empty store
under any number of worker steps. -/
inductive Reachable : StoreState → Prop where
  | init : Reachable ⟨[], 0⟩
  | step (s s2 : StoreState) : Reachable s → Step s s2 → Reachable s2

/-- Modelled from the spec: a claim state counted by the safety invariant,
`state ∈ {Claiming, Running}` (§3, §8). -/
def ClaimState.isActive : ClaimState → Bool
  | .Claiming => true
  | .Running => true
  | .Failed => false
  | .Released => false

/-- Modelled from the spec: a live claim — active state and a heartbeat
fresher than the staleness threshold `Tstale` at the given clock (§3
invariant, §8 mutual exclusion). -/
def Claim.isLive (Tstale clock : Nat) (c : Claim) : Bool :=
  c.state.isActive && decide (clock - c.lastHeartbeat < Tstale)

/-- Modelled from the spec: the live claims stored for one host name (§8:
the records the mutual-exclusion property counts). -/
def liveClaims (Tstale : Nat) (s : StoreState) (host : String) :
    List (String × Claim) :=
  s.entries.filter fun e => decide (e.1 = host) && e.2.isLive Tstale s.clock

/-- The host-name keys of a store entry list. -/
def keys (es : List (String × Claim)) : List String := es.map Prod.fst

theorem keys_upsert_subset (es : List (String × Claim)) (h : String) (c : Claim) :
    ∀ x ∈ keys (upsert es h c), x = h ∨ x ∈ keys es := by
  induction es with
  | nil =>
    intro x hx
    simp [upsert, keys] at hx
    exact Or.inl hx
  | cons e rest ih =>
    obtain ⟨k, v⟩ := e
    intro x hx
    by_cases hk : k = h
    · simp [upsert, hk, keys] at hx ⊢
      tauto
    · simp [upsert, hk, keys] at hx ⊢
      rcases hx with h1 | h1
      · exact Or.inr (Or.inl h1)
      · rcases ih x (by simpa [keys] using h1) with h2 | h2
        · exact Or.inl h2
        · exact Or.inr (Or.inr (by simpa [keys] using h2))

theorem nodup_keys_upsert (es : List (String × Claim)) (h : String) (c : Claim)
    (hnd : (keys es).Nodup) : (keys (upsert es h c)).Nodup := by
  induction es with
  | nil => simp [upsert, keys]
  | cons e rest ih =>
    obtain ⟨k, v⟩ := e
    simp only [keys, List.map_cons, List.nodup_cons] at hnd
    obtain ⟨hk1, hk2⟩ := hnd
    by_cases hk : k = h
    · subst hk
      have hu : upsert ((k, v) :: rest) k c = (k, c) :: rest := by simp [upsert]
      rw [hu]
      simp only [keys, List.map_cons, List.nodup_cons]
      exact ⟨hk1, hk2⟩
    · simp only [upsert, if_neg hk, keys, List.map_cons, List.nodup_cons]
      refine ⟨?_, by simpa [keys] using ih (by simpa [keys] using hk2)⟩
      intro hmem
      rcases keys_upsert_subset rest h c k (by simpa [keys] using hmem) with h2 | h2
      · exact hk h2
      · exact hk1 (by simpa [keys] using h2)

theorem reachable_nodup_keys (s : StoreState) (hs : Reachable s) :
    (keys s.entries).Nodup := by
  induction hs with
  | init => simp [keys]
  | step s s2 _ hstep ih =>
    cases hstep with
    | write host expected c hw =>
      unfold conditionalWrite at hw
      split at hw
      · cases hw
        exact nodup_keys_upsert s.entries host c ih
      · cases hw
    | tick => exact ih

theorem length_filter_key_le_one (host : String) (p : String × Claim → Bool) :
    ∀ es : List (String × Claim), (keys es).Nodup →
      (es.filter fun e => decide (e.1 = host) && p e).length ≤ 1 := by
  intro es
  induction es with
  | nil => simp
  | cons e rest ih =>
    obtain ⟨k, v⟩ := e
    intro hnd
    simp only [keys, List.map_cons, List.nodup_cons] at hnd
    obtain ⟨hk1, hk2⟩ := hnd
    by_cases hcond : (decide (k = host) && p (k, v)) = true
    · have hand := hcond
      rw [Bool.and_eq_true] at hand
      have hk : k = host := of_decide_eq_true hand.1
      have hempty : rest.filter (fun e => decide (e.1 = host) && p e) = [] := by
        rw [List.filter_eq_nil_iff]
        intro a ha hpa
        have hpa2 := hpa
        rw [Bool.and_eq_true] at hpa2
        have ha1 : a.1 = host := of_decide_eq_true hpa2.1
        refine hk1 ?_
        have hmm : a.1 ∈ List.map Prod.fst rest := List.mem_map_of_mem Prod.fst ha
        rwa [ha1, ← hk] at hmm
      simp [List.filter_cons, hcond, hempty]
    · simp only [Bool.not_eq_true] at hcond
      simp only [List.filter_cons, hcond, Bool.false_eq_true, if_false]
      exact ih hk2

/-- C1: for every host name, in every reachable store state (any number of
workers, any interleaving of conditional writes and clock ticks), at most one
claim record with state Claiming or Running and a fresh heartbeat exists for
that host. -/
theorem claim_mutual_exclusion (Tstale : Nat) (s : StoreState) (host : String)
    (hs : Reachable s) : (liveClaims Tstale s host).length ≤ 1 :=
  length_filter_key_le_one host (fun e => e.2.isLive Tstale s.clock) s.entries
    (reachable_nodup_keys s hs)

/-- Concrete instantiation of `claim_mutual_exclusion`: the state in which
worker-1 holds a fresh claim on host app1, reached from the empty store by
one conditional write, satisfies the invariant. -/
theorem claim_mutual_exclusion_witness :
    Reachable ⟨[("app1", ⟨"worker-1", ClaimState.Claiming, 0⟩)], 0⟩ ∧
    (liveClaims 30 ⟨[("app1", ⟨"worker-1", ClaimState.Claiming, 0⟩)], 0⟩ "app1").length ≤ 1 := by
  have hr : Reachable ⟨[("app1", ⟨"worker-1", ClaimState.Claiming, 0⟩)], 0⟩ :=
    Reachable.step _ _ Reachable.init
      (Step.write "app1" none ⟨"worker-1", ClaimState.Claiming, 0⟩ (by rfl))
  exact ⟨hr, claim_mutual_exclusion 30 _ "app1" hr⟩

end ClaimProtocol

namespace SSH

theorem setenvLoop_ok_of_all (w : SSHWorld) (env : List (String × String))
    (h : ∀ nv ∈ env, w.setenv nv.1 nv.2 = Except.ok ()) :
    setenvLoop w env = (env.map fun nv => Action.setenv nv.1 nv.2, none) := by
  induction env with
  | nil => rfl
  | cons nv rest ih =>
    obtain ⟨n, v⟩ := nv
    have hn : w.setenv n v = Except.ok () := h (n, v) (List.mem_cons_self _ _)
    have hrest : ∀ nv ∈ rest, w.setenv nv.1 nv.2 = Except.ok () :=
      fun nv hnv => h nv (List.mem_cons_of_mem _ hnv)
    simp [setenvLoop, hn, ih hrest]

theorem setenvLoop_all_of_ok (w : SSHWorld) (env : List (String × String))
    (h2 : (setenvLoop w env).2 = none) :
    ∀ nv ∈ env, w.setenv nv.1 nv.2 = Except.ok () := by
  induction env with
  | nil => intro nv hnv; cases hnv
  | cons nv rest ih =>
    obtain ⟨n, v⟩ := nv
    intro nv2 hnv2
    cases hs : w.setenv n v with
    | error e => simp [setenvLoop, hs] at h2
    | ok u =>
      cases u
      simp only [setenvLoop, hs] at h2
      rcases List.mem_cons.1 hnv2 with rfl | hmem
      · exact hs
      · exact ih h2 nv2 hmem

theorem setenvLoop_actions_setenv (w : SSHWorld) (env : List (String × String)) :
    ∀ a ∈ (setenvLoop w env).1, ∃ n v, a = Action.setenv n v := by
  induction env with
  | nil => simp [setenvLoop]
  | cons nv rest ih =>
    obtain ⟨n, v⟩ := nv
    intro a ha
    cases hs : w.setenv n v with
    | error e =>
      simp [setenvLoop, hs] at ha
      exact ⟨n, v, ha⟩
    | ok u =>
      cases u
      simp only [setenvLoop, hs, List.mem_cons] at ha
      rcases ha with rfl | hmem
      · exact ⟨n, v, rfl⟩
      · exact ih a hmem

theorem remoteSSH_dial_error (w : SSHWorld) (u pk host port cmd : String)
    (env : List (String × String)) (hpk : pk.length ≠ 0) (e : String)
    (hdial : w.dial "tcp" (joinHostPort host port) (mkSSHConfig w u pk) = Except.error e) :
    RemoteSSHCommand w u pk host port cmd env =
      ([Action.dialTCP (joinHostPort host port) (mkSSHConfig w u pk)],
        some ("Failed to dial: " ++ e)) := by
  simp [RemoteSSHCommand, hpk, hdial]

theorem remoteSSH_session_error (w : SSHWorld) (u pk host port cmd : String)
    (env : List (String × String)) (hpk : pk.length ≠ 0)
    (hdial : w.dial "tcp" (joinHostPort host port) (mkSSHConfig w u pk) = Except.ok ())
    (e : String) (hsess : w.newSession = Except.error e) :
    RemoteSSHCommand w u pk host port cmd env =
      ([Action.dialTCP (joinHostPort host port) (mkSSHConfig w u pk), Action.newSession],
        some ("Failed to create session: " ++ e)) := by
  simp [RemoteSSHCommand, hpk, hdial, hsess]

theorem remoteSSH_after (w : SSHWorld) (u pk host port cmd : String)
    (env : List (String × String)) (hpk : pk.length ≠ 0)
    (hdial : w.dial "tcp" (joinHostPort host port) (mkSSHConfig w u pk) = Except.ok ())
    (hsess : w.newSession = Except.ok ()) :
    RemoteSSHCommand w u pk host port cmd env =
      ([Action.dialTCP (joinHostPort host port) (mkSSHConfig w u pk), Action.newSession] ++
        (afterSession w cmd env).1 ++ [Action.closeSession],
        (afterSession w cmd env).2) := by
  simp [RemoteSSHCommand, hpk, hdial, hsess]

theorem afterSession_pty_error (w : SSHWorld) (cmd : String)
    (env : List (String × String)) (e : String)
    (hpty : w.requestPty "xterm" 80 40 ttyModes = Except.error e) :
    afterSession w cmd env =
      ([Action.requestPty "xterm" 80 40 ttyModes],
        some ("Request for pseudo terminal failed: " ++ e)) := by
  simp [afterSession, hpty]

theorem afterSession_env_error (w : SSHWorld) (cmd : String)
    (env : List (String × String))
    (hpty : w.requestPty "xterm" 80 40 ttyModes = Except.ok ())
    (hin : w.stdinPipe = Except.ok ()) (hout : w.stdoutPipe = Except.ok ())
    (herr : w.stderrPipe = Except.ok ()) (e : String)
    (henv : (setenvLoop w env).2 = some e) :
    afterSession w cmd env =
      ([Action.requestPty "xterm" 80 40 ttyModes,
        Action.spawnCopy IOStream.remoteStdin IOStream.localStdin,
        Action.spawnCopy IOStream.localStdout IOStream.remoteStdout,
        Action.spawnCopy IOStream.localStderr IOStream.remoteStderr] ++
        (setenvLoop w env).1, some e) := by
  simp [afterSession, hpty, hin, hout, herr, henv]

theorem afterSession_success (w : SSHWorld) (cmd : String)
    (env : List (String × String))
    (hpty : w.requestPty "xterm" 80 40 ttyModes = Except.ok ())
    (hin : w.stdinPipe = Except.ok ()) (hout : w.stdoutPipe = Except.ok ())
    (herr : w.stderrPipe = Except.ok ())
    (henv : (setenvLoop w env).2 = none) :
    afterSession w cmd env =
      ([Action.requestPty "xterm" 80 40 ttyModes,
        Action.spawnCopy IOStream.remoteStdin IOStream.localStdin,
        Action.spawnCopy IOStream.localStdout IOStream.remoteStdout,
        Action.spawnCopy IOStream.localStderr IOStream.remoteStderr] ++
        (setenvLoop w env).1 ++ [Action.runCmd cmd],
        Option.map (fun e => "Failed to run command: " ++ cmd ++ ": " ++ e)
          (w.run cmd).runError) := by
  cases hr : (w.run cmd).runError with
  | none => simp [afterSession, hpty, hin, hout, herr, henv, hr]
  | some e => simp [afterSession, hpty, hin, hout, herr, henv, hr]

theorem afterSession_session_acts (w : SSHWorld) (cmd : String)
    (env : List (String × String)) :
    ∀ a ∈ (afterSession w cmd env).1, a.isSessionAct = true := by
  intro a ha
  have hset := setenvLoop_actions_setenv w env
  unfold afterSession at ha
  cases h1 : w.requestPty "xterm" 80 40 ttyModes <;> simp only [h1] at ha
  · simp at ha
    subst ha
    rfl
  · cases h2 : w.stdinPipe <;> simp only [h2] at ha
    · simp at ha
      subst ha
      rfl
    · cases h3 : w.stdoutPipe <;> simp only [h3] at ha
      · simp at ha
        rcases ha with rfl | rfl <;> rfl
      · cases h4 : w.stderrPipe <;> simp only [h4] at ha
        · simp at ha
          rcases ha with rfl | rfl | rfl <;> rfl
        · cases h5 : (setenvLoop w env).2 <;> simp only [h5] at ha
          · cases h6 : (w.run cmd).runError <;> simp only [h6] at ha <;>
              simp at ha <;>
              rcases ha with rfl | rfl | rfl | rfl | hm | rfl <;>
              first
                | rfl
                | (obtain ⟨n, v, rfl⟩ := hset a hm; rfl)
          · simp at ha
            rcases ha with rfl | rfl | rfl | rfl | hm <;>
              first
                | rfl
                | (obtain ⟨n, v, rfl⟩ := hset a hm; rfl)

theorem afterSession_head_pty (w : SSHWorld) (cmd : String)
    (env : List (String × String)) :
    ∃ tail, (afterSession w cmd env).1 =
      Action.requestPty "xterm" 80 40 ttyModes :: tail := by
  unfold afterSession
  cases h1 : w.requestPty "xterm" 80 40 ttyModes <;>
    cases h2 : w.stdinPipe <;>
    cases h3 : w.stdoutPipe <;>
    cases h4 : w.stderrPipe <;>
    cases h5 : (setenvLoop w env).2 <;>
    cases h6 : (w.run cmd).runError <;>
    simp [h5]

theorem remoteSSH_dial_attempted (w : SSHWorld) (u pk host port cmd : String)
    (env : List (String × String)) (hpk : pk.length ≠ 0) :
    Action.dialTCP (joinHostPort host port) (mkSSHConfig w u pk) ∈
      (RemoteSSHCommand w u pk host port cmd env).1 := by
  cases hd : w.dial "tcp" (joinHostPort host port) (mkSSHConfig w u pk) with
  | error e => simp [remoteSSH_dial_error w u pk host port cmd env hpk e hd]
  | ok x =>
    cases x
    cases hs : w.newSession with
    | error e => simp [remoteSSH_session_error w u pk host port cmd env hpk hd e hs]
    | ok y =>
      cases y
      simp [remoteSSH_after w u pk host port cmd env hpk hd hs]

theorem remoteSSH_dial_config (w : SSHWorld) (u pk host port cmd : String)
    (env : List (String × String)) (hpk : pk.length ≠ 0)
    (hp : String) (cfg : ClientConfig)
    (hmem : Action.dialTCP hp cfg ∈ (RemoteSSHCommand w u pk host port cmd env).1) :
    hp = joinHostPort host port ∧ cfg = mkSSHConfig w u pk := by
  cases hd : w.dial "tcp" (joinHostPort host port) (mkSSHConfig w u pk) with
  | error e =>
    rw [remoteSSH_dial_error w u pk host port cmd env hpk e hd] at hmem
    simp at hmem
    exact hmem
  | ok x =>
    cases x
    cases hs : w.newSession with
    | error e =>
      rw [remoteSSH_session_error w u pk host port cmd env hpk hd e hs] at hmem
      simp at hmem
      exact hmem
    | ok y =>
      cases y
      rw [remoteSSH_after w u pk host port cmd env hpk hd hs] at hmem
      simp at hmem
      rcases hmem with ⟨h1, h2⟩ | hmem2
      · exact ⟨h1, h2⟩
      · exact absurd (afterSession_session_acts w cmd env _ hmem2) (by simp [Action.isSessionAct])

theorem remoteSSH_success_eq (w : SSHWorld) (u pk host port cmd : String)
    (env : List (String × String)) (hpk : pk.length ≠ 0)
    (hdial : w.dial "tcp" (joinHostPort host port) (mkSSHConfig w u pk) = Except.ok ())
    (hsess : w.newSession = Except.ok ())
    (hpty : w.requestPty "xterm" 80 40 ttyModes = Except.ok ())
    (hin : w.stdinPipe = Except.ok ()) (hout : w.stdoutPipe = Except.ok ())
    (herr : w.stderrPipe = Except.ok ())
    (henv : ∀ nv ∈ env, w.setenv nv.1 nv.2 = Except.ok ()) :
    RemoteSSHCommand w u pk host port cmd env =
      ([Action.dialTCP (joinHostPort host port) (mkSSHConfig w u pk), Action.newSession,
        Action.requestPty "xterm" 80 40 ttyModes,
        Action.spawnCopy IOStream.remoteStdin IOStream.localStdin,
        Action.spawnCopy IOStream.localStdout IOStream.remoteStdout,
        Action.spawnCopy IOStream.localStderr IOStream.remoteStderr] ++
        (env.map fun nv => Action.setenv nv.1 nv.2) ++
        [Action.runCmd cmd, Action.closeSession],
        Option.map (fun e => "Failed to run command: " ++ cmd ++ ": " ++ e)
          (w.run cmd).runError) := by
  have hloop := setenvLoop_ok_of_all w env henv
  rw [remoteSSH_after w u pk host port cmd env hpk hdial hsess,
    afterSession_success w cmd env hpty hin hout herr (by rw [hloop]), hloop]
  simp

theorem setenvActions_map (env : List (String × String)) :
    setenvActions (env.map fun nv => Action.setenv nv.1 nv.2) = env := by
  induction env with
  | nil => rfl
  | cons nv rest ih =>
    obtain ⟨n, v⟩ := nv
    simp only [List.map_cons, setenvActions, List.filterMap_cons] at ih ⊢
    rw [ih]

theorem setenvActions_append (t1 t2 : List Action) :
    setenvActions (t1 ++ t2) = setenvActions t1 ++ setenvActions t2 := by
  simp [setenvActions]

theorem setenv_precedes_run_of_success (w : SSHWorld) (u pk host port cmd : String)
    (env : List (String × String)) (hpk : pk.length ≠ 0)
    (hdial : w.dial "tcp" (joinHostPort host port) (mkSSHConfig w u pk) = Except.ok ())
    (hsess : w.newSession = Except.ok ())
    (hpty : w.requestPty "xterm" 80 40 ttyModes = Except.ok ())
    (hin : w.stdinPipe = Except.ok ()) (hout : w.stdoutPipe = Except.ok ())
    (herr : w.stderrPipe = Except.ok ())
    (henv : ∀ nv ∈ env, w.setenv nv.1 nv.2 = Except.ok ()) :
    ∀ nv ∈ env, precedes (Action.setenv nv.1 nv.2) (Action.runCmd cmd)
      (RemoteSSHCommand w u pk host port cmd env).1 := by
  intro nv hnv
  have heq := remoteSSH_success_eq w u pk host port cmd env hpk hdial hsess hpty hin hout herr henv
  obtain ⟨l1, l2, hsplit⟩ := List.append_of_mem hnv
  refine ⟨[Action.dialTCP (joinHostPort host port) (mkSSHConfig w u pk), Action.newSession,
      Action.requestPty "xterm" 80 40 ttyModes,
      Action.spawnCopy IOStream.remoteStdin IOStream.localStdin,
      Action.spawnCopy IOStream.localStdout IOStream.remoteStdout,
      Action.spawnCopy IOStream.localStderr IOStream.remoteStderr] ++
      (l1.map fun nv => Action.setenv nv.1 nv.2),
    (l2.map fun nv => Action.setenv nv.1 nv.2) ++ [Action.runCmd cmd, Action.closeSession],
    ?_, by simp⟩
  rw [heq]
  subst hsplit
  simp

/-- C2: a call to `RemoteSSHCommand` whose `privateKey` argument is the empty
string returns a non-nil credential error naming the host immediately: the
trace of external actions is empty, so no connection attempt is made and
nothing is retried. -/
theorem missing_key_fails_fast (w : SSHWorld) (user privateKey host port cmd : String)
    (env : List (String × String)) (hpk : privateKey.length = 0) :
    RemoteSSHCommand w user privateKey host port cmd env =
      ([], some ("Could not find PrivateKey for entry " ++ host)) := by
  simp [RemoteSSHCommand, hpk]

/-- Instantiation of `missing_key_fails_fast` at the empty private key. -/
theorem missing_key_fails_fast_witness :
    ("" : String).length = 0 ∧
    RemoteSSHCommand witWorld "joe" "" "app1" "22" "date" [] =
      ([], some ("Could not find PrivateKey for entry " ++ "app1")) :=
  ⟨by decide, missing_key_fails_fast witWorld "joe" "" "app1" "22" "date" [] (by decide)⟩

/-- C3: contrary to the claim, no connection attempt made by
`RemoteSSHCommand` is bounded by a connect timeout: every dial action in any
call's trace carries the `ssh.ClientConfig` built at ssh.go:39-44, whose
`Timeout` field is left at its zero value — the value under which `ssh.Dial`
applies no connect timeout and may block indefinitely on network or
authentication. -/
theorem dial_has_no_connect_timeout (w : SSHWorld) (user privateKey host port cmd : String)
    (env : List (String × String)) (hpk : privateKey.length ≠ 0)
    (hp : String) (cfg : ClientConfig)
    (hmem : Action.dialTCP hp cfg ∈ (RemoteSSHCommand w user privateKey host port cmd env).1) :
    cfg.timeout = none := by
  obtain ⟨-, hcfg⟩ :=
    remoteSSH_dial_config w user privateKey host port cmd env hpk hp cfg hmem
  rw [hcfg]
  rfl

/-- Instantiation of `dial_has_no_connect_timeout` at a concrete call whose
dial action is evaluated explicitly. -/
theorem dial_has_no_connect_timeout_witness :
    ("id_rsa" : String).length ≠ 0 ∧
    Action.dialTCP "app1:22" (mkSSHConfig witWorld "joe" "id_rsa") ∈
      (RemoteSSHCommand witWorld "joe" "id_rsa" "app1" "22" "date" []).1 ∧
    (mkSSHConfig witWorld "joe" "id_rsa").timeout = none :=
  ⟨by decide, by decide,
    dial_has_no_connect_timeout witWorld "joe" "id_rsa" "app1" "22" "date" [] (by decide)
      "app1:22" (mkSSHConfig witWorld "joe" "id_rsa") (by decide)⟩

/-- C4 counterexample: at a concrete call with an empty `envVars` map the
remote command is run even though not a single environment variable — in
particular no worker-identity metadata such as the claimed host name — was
injected into the session: `RemoteSSHCommand` injects nothing beyond the
entries of `envVars` itself. -/
theorem no_worker_identity_metadata :
    Action.runCmd "date" ∈
      (RemoteSSHCommand witWorld "joe" "id_rsa" "app1" "22" "date" []).1 ∧
    setenvActions (RemoteSSHCommand witWorld "joe" "id_rsa" "app1" "22" "date" []).1 = [] := by
  decide

/-- C4 (amended): when setup succeeds and every setenv is accepted, the
session is opened by dialing the joined host:port endpoint with the config
carrying the given user and the auth method derived from the given private
key, and exactly the name-value pairs of `envVars` (in iteration order, with
no additional worker-identity metadata) are injected into the session as
environment variables, each before the command is run. -/
theorem session_env_injection (w : SSHWorld) (user privateKey host port cmd : String)
    (env : List (String × String)) (hpk : privateKey.length ≠ 0)
    (hdial : w.dial "tcp" (joinHostPort host port) (mkSSHConfig w user privateKey) = Except.ok ())
    (hsess : w.newSession = Except.ok ())
    (hpty : w.requestPty "xterm" 80 40 ttyModes = Except.ok ())
    (hin : w.stdinPipe = Except.ok ()) (hout : w.stdoutPipe = Except.ok ())
    (herr : w.stderrPipe = Except.ok ())
    (henv : ∀ nv ∈ env, w.setenv nv.1 nv.2 = Except.ok ()) :
    Action.dialTCP (joinHostPort host port) (mkSSHConfig w user privateKey) ∈
      (RemoteSSHCommand w user privateKey host port cmd env).1 ∧
    setenvActions (RemoteSSHCommand w user privateKey host port cmd env).1 = env ∧
    (∀ nv ∈ env, precedes (Action.setenv nv.1 nv.2) (Action.runCmd cmd)
      (RemoteSSHCommand w user privateKey host port cmd env).1) := by
  have heq := remoteSSH_success_eq w user privateKey host port cmd env hpk hdial hsess
    hpty hin hout herr henv
  have htr : (RemoteSSHCommand w user privateKey host port cmd env).1 =
      [Action.dialTCP (joinHostPort host port) (mkSSHConfig w user privateKey),
        Action.newSession, Action.requestPty "xterm" 80 40 ttyModes,
        Action.spawnCopy IOStream.remoteStdin IOStream.localStdin,
        Action.spawnCopy IOStream.localStdout IOStream.remoteStdout,
        Action.spawnCopy IOStream.localStderr IOStream.remoteStderr] ++
        (env.map fun nv => Action.setenv nv.1 nv.2) ++
        [Action.runCmd cmd, Action.closeSession] := by
    rw [heq]
  refine ⟨by rw [htr]; simp, ?_, setenv_precedes_run_of_success w user privateKey host
    port cmd env hpk hdial hsess hpty hin hout herr henv⟩
  rw [htr, setenvActions_append, setenvActions_append, setenvActions_map]
  simp [setenvActions]

/-- C5: when the call reaches the run step, the trace ends with the run of
the command followed only by the deferred session close (the call blocks on
the run and returns immediately after it), and the call returns the run's
outcome: a nil error for exit status 0 and a non-nil error wrapping the exit
status or transport failure otherwise — every exit code is a recorded
outcome returned to the caller, never an abort. -/
theorem run_returns_outcome (w : SSHWorld) (user privateKey host port cmd : String)
    (env : List (String × String)) (hpk : privateKey.length ≠ 0)
    (hdial : w.dial "tcp" (joinHostPort host port) (mkSSHConfig w user privateKey) = Except.ok ())
    (hsess : w.newSession = Except.ok ())
    (hpty : w.requestPty "xterm" 80 40 ttyModes = Except.ok ())
    (hin : w.stdinPipe = Except.ok ()) (hout : w.stdoutPipe = Except.ok ())
    (herr : w.stderrPipe = Except.ok ())
    (henv : ∀ nv ∈ env, w.setenv nv.1 nv.2 = Except.ok ()) :
    Action.runCmd cmd ∈ (RemoteSSHCommand w user privateKey host port cmd env).1 ∧
    (∃ t1, (RemoteSSHCommand w user privateKey host port cmd env).1 =
      t1 ++ [Action.runCmd cmd, Action.closeSession]) ∧
    (RemoteSSHCommand w user privateKey host port cmd env).2 =
      Option.map (fun e => "Failed to run command: " ++ cmd ++ ": " ++ e)
        (w.run cmd).runError ∧
    (w.run cmd = RunOutcome.exited 0 →
      (RemoteSSHCommand w user privateKey host port cmd env).2 = none) ∧
    (∀ c2, w.run cmd = RunOutcome.exited (c2 + 1) →
      (RemoteSSHCommand w user privateKey host port cmd env).2 =
        some ("Failed to run command: " ++ cmd ++ ": " ++
          ("Process exited with status " ++ toString (c2 + 1)))) := by
  have heq := remoteSSH_success_eq w user privateKey host port cmd env hpk hdial hsess
    hpty hin hout herr henv
  have htr : (RemoteSSHCommand w user privateKey host port cmd env).1 =
      [Action.dialTCP (joinHostPort host port) (mkSSHConfig w user privateKey),
        Action.newSession, Action.requestPty "xterm" 80 40 ttyModes,
        Action.spawnCopy IOStream.remoteStdin IOStream.localStdin,
        Action.spawnCopy IOStream.localStdout IOStream.remoteStdout,
        Action.spawnCopy IOStream.localStderr IOStream.remoteStderr] ++
        (env.map fun nv => Action.setenv nv.1 nv.2) ++
        [Action.runCmd cmd, Action.closeSession] := by
    rw [heq]
  have hres : (RemoteSSHCommand w user privateKey host port cmd env).2 =
      Option.map (fun e => "Failed to run command: " ++ cmd ++ ": " ++ e)
        (w.run cmd).runError := by
    rw [heq]
  refine ⟨by rw [htr]; simp, ⟨_, htr⟩, hres, ?_, ?_⟩
  · intro h0
    rw [hres, h0]
    rfl
  · intro c2 hc
    rw [hres, hc]
    rfl

/-- Instantiation of `run_returns_outcome` where the remote command exits
with status 2. -/
theorem run_returns_outcome_witness :
    ("id_rsa" : String).length ≠ 0 ∧
    (RemoteSSHCommand witWorldExit2 "joe" "id_rsa" "app1" "22" "date" []).2 =
      some ("Failed to run command: " ++ "date" ++ ": " ++
        ("Process exited with status " ++ toString (1 + 1))) := by
  refine ⟨by decide, ?_⟩
  exact (run_returns_outcome witWorldExit2 "joe" "id_rsa" "app1" "22" "date" []
    (by decide) (by rfl) (by rfl) (by rfl) (by rfl) (by rfl) (by rfl)
    (by intro nv h; exact absurd h (List.not_mem_nil nv))).2.2.2.2 1 (by rfl)

/-- C6: if dialing the endpoint fails the call returns a non-nil error
wrapping the dial failure, and if session creation fails it returns a
non-nil error wrapping that failure; in both cases the remote command is
never run. -/
theorem dial_or_session_failure (w : SSHWorld) (user privateKey host port cmd : String)
    (env : List (String × String)) (hpk : privateKey.length ≠ 0) :
    (∀ e, w.dial "tcp" (joinHostPort host port) (mkSSHConfig w user privateKey) =
        Except.error e →
      (RemoteSSHCommand w user privateKey host port cmd env).2 =
        some ("Failed to dial: " ++ e) ∧
      Action.runCmd cmd ∉ (RemoteSSHCommand w user privateKey host port cmd env).1) ∧
    (w.dial "tcp" (joinHostPort host port) (mkSSHConfig w user privateKey) = Except.ok () →
      ∀ e, w.newSession = Except.error e →
      (RemoteSSHCommand w user privateKey host port cmd env).2 =
        some ("Failed to create session: " ++ e) ∧
      Action.runCmd cmd ∉ (RemoteSSHCommand w user privateKey host port cmd env).1) := by
  constructor
  · intro e hd
    rw [remoteSSH_dial_error w user privateKey host port cmd env hpk e hd]
    simp
  · intro hd e hs
    rw [remoteSSH_session_error w user privateKey host port cmd env hpk hd e hs]
    simp

/-- Instantiation of `dial_or_session_failure` where the dial is refused. -/
theorem dial_or_session_failure_witness :
    ("id_rsa" : String).length ≠ 0 ∧
    ((RemoteSSHCommand witWorldDialFail "joe" "id_rsa" "app1" "22" "date" []).2 =
      some ("Failed to dial: " ++ "connection refused") ∧
      Action.runCmd "date" ∉
        (RemoteSSHCommand witWorldDialFail "joe" "id_rsa" "app1" "22" "date" []).1) :=
  ⟨by decide,
    (dial_or_session_failure witWorldDialFail "joe" "id_rsa" "app1" "22" "date" []
      (by decide)).1 "connection refused" (by rfl)⟩

/-- C7: under a successful setup, each of the three stream-copy statements
(local stdin into the remote stdin pipe, remote stdout into local stdout,
remote stderr into local stderr) appears in the trace as an independently
spawned concurrent copy task (a `go io.Copy` statement, each task preserving
its own stream's byte order and with no cross-stream ordering imposed), all
spawned before the command runs; the deferred session close that ends the
three streams comes after the run. -/
theorem streaming_copy_tasks (w : SSHWorld) (user privateKey host port cmd : String)
    (env : List (String × String)) (hpk : privateKey.length ≠ 0)
    (hdial : w.dial "tcp" (joinHostPort host port) (mkSSHConfig w user privateKey) = Except.ok ())
    (hsess : w.newSession = Except.ok ())
    (hpty : w.requestPty "xterm" 80 40 ttyModes = Except.ok ())
    (hin : w.stdinPipe = Except.ok ()) (hout : w.stdoutPipe = Except.ok ())
    (herr : w.stderrPipe = Except.ok ())
    (henv : ∀ nv ∈ env, w.setenv nv.1 nv.2 = Except.ok ()) :
    precedes (Action.spawnCopy IOStream.remoteStdin IOStream.localStdin)
      (Action.runCmd cmd) (RemoteSSHCommand w user privateKey host port cmd env).1 ∧
    precedes (Action.spawnCopy IOStream.localStdout IOStream.remoteStdout)
      (Action.runCmd cmd) (RemoteSSHCommand w user privateKey host port cmd env).1 ∧
    precedes (Action.spawnCopy IOStream.localStderr IOStream.remoteStderr)
      (Action.runCmd cmd) (RemoteSSHCommand w user privateKey host port cmd env).1 ∧
    precedes (Action.runCmd cmd) Action.closeSession
      (RemoteSSHCommand w user privateKey host port cmd env).1 := by
  have htr : (RemoteSSHCommand w user privateKey host port cmd env).1 =
      [Action.dialTCP (joinHostPort host port) (mkSSHConfig w user privateKey),
        Action.newSession, Action.requestPty "xterm" 80 40 ttyModes,
        Action.spawnCopy IOStream.remoteStdin IOStream.localStdin,
        Action.spawnCopy IOStream.localStdout IOStream.remoteStdout,
        Action.spawnCopy IOStream.localStderr IOStream.remoteStderr] ++
        (env.map fun nv => Action.setenv nv.1 nv.2) ++
        [Action.runCmd cmd, Action.closeSession] := by
    rw [remoteSSH_success_eq w user privateKey host port cmd env hpk hdial hsess
      hpty hin hout herr henv]
  refine ⟨⟨[Action.dialTCP (joinHostPort host port) (mkSSHConfig w user privateKey),
      Action.newSession, Action.requestPty "xterm" 80 40 ttyModes],
      [Action.spawnCopy IOStream.localStdout IOStream.remoteStdout,
        Action.spawnCopy IOStream.localStderr IOStream.remoteStderr] ++
        (env.map fun nv => Action.setenv nv.1 nv.2) ++
        [Action.runCmd cmd, Action.closeSession],
      by rw [htr]; simp, by simp⟩,
    ⟨[Action.dialTCP (joinHostPort host port) (mkSSHConfig w user privateKey),
      Action.newSession, Action.requestPty "xterm" 80 40 ttyModes,
      Action.spawnCopy IOStream.remoteStdin IOStream.localStdin],
      [Action.spawnCopy IOStream.localStderr IOStream.remoteStderr] ++
        (env.map fun nv => Action.setenv nv.1 nv.2) ++
        [Action.runCmd cmd, Action.closeSession],
      by rw [htr]; simp, by simp⟩,
    ⟨[Action.dialTCP (joinHostPort host port) (mkSSHConfig w user privateKey),
      Action.newSession, Action.requestPty "xterm" 80 40 ttyModes,
      Action.spawnCopy IOStream.remoteStdin IOStream.localStdin,
      Action.spawnCopy IOStream.localStdout IOStream.remoteStdout],
      (env.map fun nv => Action.setenv nv.1 nv.2) ++
        [Action.runCmd cmd, Action.closeSession],
      by rw [htr]; simp, by simp⟩,
    ⟨[Action.dialTCP (joinHostPort host port) (mkSSHConfig w user privateKey),
      Action.newSession, Action.requestPty "xterm" 80 40 ttyModes,
      Action.spawnCopy IOStream.remoteStdin IOStream.localStdin,
      Action.spawnCopy IOStream.localStdout IOStream.remoteStdout,
      Action.spawnCopy IOStream.localStderr IOStream.remoteStderr] ++
        (env.map fun nv => Action.setenv nv.1 nv.2),
      [Action.closeSession],
      by rw [htr], by simp⟩⟩

/-- Instantiation of `streaming_copy_tasks` at a concrete call. -/
theorem streaming_copy_tasks_witness :
    ("id_rsa" : String).length ≠ 0 ∧
    (precedes (Action.spawnCopy IOStream.remoteStdin IOStream.localStdin)
      (Action.runCmd "date")
      (RemoteSSHCommand witWorld "joe" "id_rsa" "app1" "22" "date" [("FOO", "1")]).1 ∧
    precedes (Action.spawnCopy IOStream.localStdout IOStream.remoteStdout)
      (Action.runCmd "date")
      (RemoteSSHCommand witWorld "joe" "id_rsa" "app1" "22" "date" [("FOO", "1")]).1 ∧
    precedes (Action.spawnCopy IOStream.localStderr IOStream.remoteStderr)
      (Action.runCmd "date")
      (RemoteSSHCommand witWorld "joe" "id_rsa" "app1" "22" "date" [("FOO", "1")]).1 ∧
    precedes (Action.runCmd "date") Action.closeSession
      (RemoteSSHCommand witWorld "joe" "id_rsa" "app1" "22" "date" [("FOO", "1")]).1) :=
  ⟨by decide,
    streaming_copy_tasks witWorld "joe" "id_rsa" "app1" "22" "date" [("FOO", "1")]
      (by decide) (by rfl) (by rfl) (by rfl) (by rfl) (by rfl) (by rfl)
      (by intro nv _; rfl)⟩

/-- Instantiation of `session_env_injection` at a concrete call with two
environment entries. -/
theorem session_env_injection_witness :
    ("id_rsa" : String).length ≠ 0 ∧
    Action.dialTCP (joinHostPort "app1" "22") (mkSSHConfig witWorld "joe" "id_rsa") ∈
      (RemoteSSHCommand witWorld "joe" "id_rsa" "app1" "22" "date"
        [("FOO", "1"), ("BAR", "2")]).1 ∧
    setenvActions (RemoteSSHCommand witWorld "joe" "id_rsa" "app1" "22" "date"
        [("FOO", "1"), ("BAR", "2")]).1 = [("FOO", "1"), ("BAR", "2")] ∧
    precedes (Action.setenv "FOO" "1") (Action.runCmd "date")
      (RemoteSSHCommand witWorld "joe" "id_rsa" "app1" "22" "date"
        [("FOO", "1"), ("BAR", "2")]).1 := by
  have h := session_env_injection witWorld "joe" "id_rsa" "app1" "22" "date"
    [("FOO", "1"), ("BAR", "2")] (by decide) (by rfl) (by rfl) (by rfl)
    (by rfl) (by rfl) (by rfl) (by intro nv _; rfl)
  exact ⟨by decide, h.1, h.2.1, h.2.2 ("FOO", "1") (by simp)⟩

/-- C8: when the private-key file cannot be read, or its contents cannot be
parsed as a private key, `PublicKeyFile` returns nil (`none`) rather than an
error, discarding the underlying failure; `RemoteSSHCommand` (for a
non-empty privateKey path) still dials with that nil auth method in its
config, so the bad key file surfaces only as a later
connection/authentication failure, not as an immediate configuration
error. -/
theorem bad_key_file_silent (w : SSHWorld) (file : String)
    (hbad : (∃ e, w.readFile file = Except.error e) ∨
      (∃ b, w.readFile file = Except.ok b ∧ ∃ e, w.parsePrivateKey b = Except.error e)) :
    PublicKeyFile w file = none ∧
    (file.length ≠ 0 → ∀ user host port cmd env,
      Action.dialTCP (joinHostPort host port)
        { user := user, auth := [none], timeout := none } ∈
        (RemoteSSHCommand w user file host port cmd env).1) := by
  have hpkf : PublicKeyFile w file = none := by
    rcases hbad with ⟨e, he⟩ | ⟨b, hb, e, he⟩
    · simp [PublicKeyFile, he]
    · simp [PublicKeyFile, hb, he]
  refine ⟨hpkf, ?_⟩
  intro hlen user host port cmd env
  have hcfg : mkSSHConfig w user file =
      { user := user, auth := [none], timeout := none } := by
    simp [mkSSHConfig, hpkf]
  have hmem := remoteSSH_dial_attempted w user file host port cmd env hlen
  rwa [hcfg] at hmem

/-- Instantiation of `bad_key_file_silent` where reading the key file
fails. -/
theorem bad_key_file_silent_witness :
    witWorldBadKey.readFile "id_rsa" = Except.error "no such file" ∧
    PublicKeyFile witWorldBadKey "id_rsa" = none ∧
    Action.dialTCP (joinHostPort "app1" "22")
      { user := "joe", auth := [none], timeout := none } ∈
      (RemoteSSHCommand witWorldBadKey "joe" "id_rsa" "app1" "22" "date" []).1 := by
  have h := bad_key_file_silent witWorldBadKey "id_rsa" (Or.inl ⟨"no such file", rfl⟩)
  exact ⟨by rfl, h.1, h.2 (by decide) "joe" "app1" "22" "date" []⟩

/-- C9: with the session set up (pty and the three pipes succeeded), if any
entry of `envVars` is rejected by setenv the call returns a non-nil error
and the remote command is never run; conversely whenever the command is run,
every entry of `envVars` was set successfully, each before the run. -/
theorem setenv_gates_run (w : SSHWorld) (user privateKey host port cmd : String)
    (env : List (String × String)) (hpk : privateKey.length ≠ 0)
    (hdial : w.dial "tcp" (joinHostPort host port) (mkSSHConfig w user privateKey) = Except.ok ())
    (hsess : w.newSession = Except.ok ())
    (hpty : w.requestPty "xterm" 80 40 ttyModes = Except.ok ())
    (hin : w.stdinPipe = Except.ok ()) (hout : w.stdoutPipe = Except.ok ())
    (herr : w.stderrPipe = Except.ok ()) :
    ((∃ nv ∈ env, ∃ e, w.setenv nv.1 nv.2 = Except.error e) →
      (RemoteSSHCommand w user privateKey host port cmd env).2 ≠ none ∧
      Action.runCmd cmd ∉ (RemoteSSHCommand w user privateKey host port cmd env).1) ∧
    (Action.runCmd cmd ∈ (RemoteSSHCommand w user privateKey host port cmd env).1 →
      (∀ nv ∈ env, w.setenv nv.1 nv.2 = Except.ok ()) ∧
      ∀ nv ∈ env, precedes (Action.setenv nv.1 nv.2) (Action.runCmd cmd)
        (RemoteSSHCommand w user privateKey host port cmd env).1) := by
  cases hloop : (setenvLoop w env).2 with
  | some e =>
    have heq := remoteSSH_after w user privateKey host port cmd env hpk hdial hsess
    rw [afterSession_env_error w cmd env hpty hin hout herr e hloop] at heq
    have hnorun : Action.runCmd cmd ∉
        (RemoteSSHCommand w user privateKey host port cmd env).1 := by
      intro hrun
      rw [heq] at hrun
      simp at hrun
      obtain ⟨n, v, hx⟩ := setenvLoop_actions_setenv w env _ hrun
      exact Action.noConfusion hx
    constructor
    · intro _
      refine ⟨?_, hnorun⟩
      rw [heq]
      simp
    · intro hrun
      exact absurd hrun hnorun
  | none =>
    have henv := setenvLoop_all_of_ok w env hloop
    constructor
    · rintro ⟨nv, hnv, e, he⟩
      rw [henv nv hnv] at he
      exact Except.noConfusion he
    · intro _
      exact ⟨henv, setenv_precedes_run_of_success w user privateKey host port cmd env
        hpk hdial hsess hpty hin hout herr henv⟩

/-- Instantiation of `setenv_gates_run` where the remote sshd rejects the
environment variable. -/
theorem setenv_gates_run_witness :
    (∃ nv ∈ [("FOO", "1")], ∃ e,
      witWorldSetenvFail.setenv nv.1 nv.2 = Except.error e) ∧
    ((RemoteSSHCommand witWorldSetenvFail "joe" "id_rsa" "app1" "22" "date"
        [("FOO", "1")]).2 ≠ none ∧
      Action.runCmd "date" ∉
        (RemoteSSHCommand witWorldSetenvFail "joe" "id_rsa" "app1" "22" "date"
          [("FOO", "1")]).1) := by
  have hex : ∃ nv ∈ [("FOO", "1")], ∃ e,
      witWorldSetenvFail.setenv nv.1 nv.2 = Except.error e :=
    ⟨("FOO", "1"), by simp, "AcceptEnv refused", rfl⟩
  exact ⟨hex,
    (setenv_gates_run witWorldSetenvFail "joe" "id_rsa" "app1" "22" "date"
      [("FOO", "1")] (by decide) (by rfl) (by rfl) (by rfl) (by rfl) (by rfl)
      (by rfl)).1 hex⟩

/-- C10 counterexample: at a concrete successful call the pseudo-terminal
request recorded in the trace is `requestPty "xterm" 80 40` — height 80 and
width 40 under the library signature `RequestPty(term string, h, w int,
termmodes)`, i.e. 40 columns by 80 rows — while no request with height 40
and width 80 (which would be 80 columns by 40 rows) occurs. -/
theorem pty_dimensions_counterexample :
    Action.requestPty "xterm" 80 40 ttyModes ∈
      (RemoteSSHCommand witWorld "joe" "id_rsa" "app1" "22" "date" []).1 ∧
    Action.requestPty "xterm" 40 80 ttyModes ∉
      (RemoteSSHCommand witWorld "joe" "id_rsa" "app1" "22" "date" []).1 := by
  decide

/-- C10 (amended): every call that establishes a session requests a pseudo
terminal with terminal type `xterm`, height 80 and width 40 (40 columns by
80 rows, since the library signature takes the height before the width),
the request preceding every environment-variable set and the run of the
command; and if the request fails the call returns a non-nil error, sets no
environment variable and never runs the command. -/
theorem pty_requested_first (w : SSHWorld) (user privateKey host port cmd : String)
    (env : List (String × String)) (hpk : privateKey.length ≠ 0)
    (hdial : w.dial "tcp" (joinHostPort host port) (mkSSHConfig w user privateKey) = Except.ok ())
    (hsess : w.newSession = Except.ok ()) :
    Action.requestPty "xterm" 80 40 ttyModes ∈
      (RemoteSSHCommand w user privateKey host port cmd env).1 ∧
    (∀ n v, Action.setenv n v ∈ (RemoteSSHCommand w user privateKey host port cmd env).1 →
      precedes (Action.requestPty "xterm" 80 40 ttyModes) (Action.setenv n v)
        (RemoteSSHCommand w user privateKey host port cmd env).1) ∧
    (Action.runCmd cmd ∈ (RemoteSSHCommand w user privateKey host port cmd env).1 →
      precedes (Action.requestPty "xterm" 80 40 ttyModes) (Action.runCmd cmd)
        (RemoteSSHCommand w user privateKey host port cmd env).1) ∧
    (∀ e, w.requestPty "xterm" 80 40 ttyModes = Except.error e →
      (RemoteSSHCommand w user privateKey host port cmd env).2 =
        some ("Request for pseudo terminal failed: " ++ e) ∧
      (∀ n v, Action.setenv n v ∉ (RemoteSSHCommand w user privateKey host port cmd env).1) ∧
      Action.runCmd cmd ∉ (RemoteSSHCommand w user privateKey host port cmd env).1) := by
  obtain ⟨tail, htail⟩ := afterSession_head_pty w cmd env
  have heq := remoteSSH_after w user privateKey host port cmd env hpk hdial hsess
  have htr : (RemoteSSHCommand w user privateKey host port cmd env).1 =
      [Action.dialTCP (joinHostPort host port) (mkSSHConfig w user privateKey),
        Action.newSession] ++
        Action.requestPty "xterm" 80 40 ttyModes :: (tail ++ [Action.closeSession]) := by
    rw [heq, htail]
    simp
  refine ⟨by rw [htr]; simp, ?_, ?_, ?_⟩
  · intro n v hmem
    rw [htr] at hmem
    simp at hmem
    exact ⟨_, _, htr, by simp [hmem]⟩
  · intro hmem
    rw [htr] at hmem
    simp at hmem
    exact ⟨_, _, htr, by simp [hmem]⟩
  · intro e he
    have heq2 := remoteSSH_after w user privateKey host port cmd env hpk hdial hsess
    rw [afterSession_pty_error w cmd env e he] at heq2
    refine ⟨by rw [heq2], ?_, ?_⟩
    · intro n v
      rw [heq2]
      simp
    · rw [heq2]
      simp

/-- Instantiation of `pty_requested_first` where the pseudo-terminal request
is refused. -/
theorem pty_requested_first_witness :
    ("id_rsa" : String).length ≠ 0 ∧
    (RemoteSSHCommand witWorldPtyFail "joe" "id_rsa" "app1" "22" "date" []).2 =
      some ("Request for pseudo terminal failed: " ++ "pty refused") ∧
    Action.setenv "FOO" "1" ∉
      (RemoteSSHCommand witWorldPtyFail "joe" "id_rsa" "app1" "22" "date" []).1 ∧
    Action.runCmd "date" ∉
      (RemoteSSHCommand witWorldPtyFail "joe" "id_rsa" "app1" "22" "date" []).1 := by
  have h := pty_requested_first witWorldPtyFail "joe" "id_rsa" "app1" "22" "date" []
    (by decide) (by rfl) (by rfl)
  have hf := h.2.2.2 "pty refused" (by rfl)
  exact ⟨by decide, hf.1, hf.2.1 "FOO" "1", hf.2.2⟩

end SSH

end Kansible
